import Mathlib

/-!
Verification of the dm2 data-manager core: a shallow embedding of
`src/mixins/DataStore/DataStore.js` (the paginated list cache, here
`ListState`) and `src/stores/AppStore.js` (the orchestrator), with
theorems settling the frozen claims about fetch cancellation, the
setList merge algorithm, highlight bookkeeping, error bookkeeping in
the apiCall funnel, action parameter shaping, labeling transitions and
frame conditions of clear.

Modelling conventions: JavaScript numbers that hold record ids are
Nat; page counters are Int (the source uses plain integers);
JavaScript truthiness of optional arguments is made explicit
(`jsTruthyNat`, `jsTruthyInt`, `jsTruthyStr`: 0 and the empty string
are falsy); `JSON.stringify(t)` is modelled by keeping the record
snapshot itself (serialization is injective and never inspected);
guid request tokens are modelled as values of a monotone counter,
capturing that two mints never collide.
-/

/-- A raw record as received from the server: an integer id plus opaque
payload. The payload field `v` stands for all non-id fields. -/
structure RawRecord where
  id : Nat
  v : Option String := none
  deriving Repr, DecidableEq

/-- An Item held in the ListStore list: the record fields plus `source`,
the serialized snapshot of the record as received (modelled as the
snapshot itself; `none` for items created without a snapshot). -/
structure Item where
  id : Nat
  v : Option String := none
  source : Option RawRecord := none
  deriving Repr, DecidableEq

/-- Wrapping of one incoming raw record performed by `setList`:
`\x7b ...t, source: JSON.stringify(t) \x7d`. -/
def wrapRecord (t : RawRecord) : Item :=
  { id := t.id, v := t.v, source := some t }

/-- A JavaScript value as it flows into `listIncludes`: a number, an
object (an Item of the list), or `undefined`. Needed because the
source passes the highlighted Item object where an id is expected. -/
inductive JVal where
  | num (n : Nat)
  | obj (it : Item)
  | undef
  deriving Repr, DecidableEq

/-- JavaScript strict equality `item.id === id` between a numeric id and
a `JVal`: true only when the other side is the same number; a number is
never strictly equal to an object or to undefined. -/
def jsIdEq (n : Nat) : JVal → Bool
  | JVal.num m => n = m
  | JVal.obj _ => false
  | JVal.undef => false

/-- `listIncludes(list, id)` from DataStore.js: when `id` is undefined
the index is forced to -1; otherwise `findIndex` of a strict-equality
match on `item.id`, and the result is whether the index is nonnegative. -/
def listIncludes (list : List Item) (id : JVal) : Bool :=
  match id with
  | JVal.undef => false
  | v => list.any (fun item => jsIdEq item.id v)

/-- The state of one ListStore: the InfiniteListMixin fields fused with
the DataStore model fields (list, selectedId, highlightedId) and the
volatile requestId. `loadingItems` and `updated` are omitted: no claim
mentions them and no embedded operation touches them. -/
structure ListState where
  page : Int := 0
  pageSize : Int := 30
  total : Int := 0
  loading : Bool := false
  loadingItem : Bool := false
  list : List Item := []
  selectedId : Option Nat := none
  highlightedId : Option Nat := none
  requestId : Option Nat := none
  deriving Repr, DecidableEq

/-- View `selected`: the first list element whose id equals selectedId
(undefined when selectedId is null or dangling). -/
def selectedView (s : ListState) : Option Item :=
  s.list.find? (fun it => s.selectedId = some it.id)

/-- View `highlighted`: the first list element whose id equals
highlightedId. -/
def highlightedView (s : ListState) : Option Item :=
  s.list.find? (fun it => s.highlightedId = some it.id)

/-- The value of `self.highlighted` as a JavaScript value: the Item
object when it resolves, `undefined` otherwise. -/
def highlightedJVal (s : ListState) : JVal :=
  match highlightedView s with
  | some it => JVal.obj it
  | none => JVal.undef

/-- `splice(index, 1)` at the `findIndex` of the first element with the
given id: removes the first occurrence with that id, nothing if absent. -/
def removeFirstById : List Item → Nat → List Item
  | [], _ => []
  | x :: xs, i => if x.id = i then xs else x :: removeFirstById xs i

/-- `setList(\x7blist, total, reload\x7d)` from DataStore.js: wrap each
incoming record with its source snapshot, set total, for each incoming
item splice out the first existing list element with the same id, then
either replace the list (reload) or push the wrapped items at the end. -/
def setList (s : ListState) (list : List RawRecord) (total : Int) (reload : Bool) :
    ListState :=
  let newEntity := list.map wrapRecord
  let pruned := newEntity.foldl (fun acc n => removeFirstById acc n.id) s.list
  { s with
    total := total
    list := if reload then newEntity else pruned ++ newEntity }

/-- A patch passed to `updateItem`: optional id and payload fields;
absent fields leave the item field unchanged. -/
structure ItemPatch where
  id : Option Nat := none
  v : Option String := none
  deriving Repr, DecidableEq

/-- `item.update(patch)`: object-spread of the patch fields over the
item (fields present in the patch overwrite). -/
def applyPatch (it : Item) (p : ItemPatch) : Item :=
  { it with
    id := p.id.getD it.id
    v := match p.v with | some w => some w | none => it.v }

/-- `listItemType.create(patch)`: a fresh Item built from the patch. -/
def createItem (p : ItemPatch) : Item :=
  { id := p.id.getD 0, v := p.v, source := none }

/-- In-place mutation of the first list element with the given id. -/
def patchFirst : List Item → Nat → ItemPatch → List Item
  | [], _, _ => []
  | x :: xs, i, p => if x.id = i then applyPatch x p :: xs else x :: patchFirst xs i p

/-- `updateItem(itemID, patch)` from DataStore.js: patch the first item
found with that id in place, or create an item from the patch and push
it at the end. -/
def updateItem (s : ListState) (itemID : Nat) (p : ItemPatch) : ListState :=
  match s.list.find? (fun t => t.id = itemID) with
  | some _ => { s with list := patchFirst s.list itemID p }
  | none => { s with list := s.list ++ [createItem p] }

/-- `clear()` from DataStore.js: unset the highlight (the setter turns
undefined into the null default), empty the list, reset page and total. -/
def clear (s : ListState) : ListState :=
  { s with highlightedId := none, list := [], page := 0, total := 0 }

/-- JavaScript truthiness of an optional numeric id: `if (id)`. -/
def jsTruthyNat (o : Option Nat) : Bool :=
  match o with
  | some n => n ≠ 0
  | none => false

/-- JavaScript truthiness of an optional integer: `if (pageSize)`. -/
def jsTruthyInt (o : Option Int) : Bool :=
  match o with
  | some n => n ≠ 0
  | none => false

/-- JavaScript truthiness of an optional string: `if (currentViewQuery)`. -/
def jsTruthyStr (o : Option String) : Bool :=
  match o with
  | some t => t ≠ ""
  | none => false

/-- The externally supplied currently selected view descriptor
(`viewsStore.selected`): id, virtual flag and query. -/
structure ViewDesc where
  id : Nat
  virtual : Bool := false
  query : Option String := none
  deriving Repr, DecidableEq

/-- The options object of `fetch`. -/
structure FetchArgs where
  id : Option Nat := none
  query : Option String := none
  pageNumber : Option Int := none
  reload : Bool := false
  interaction : Option String := none
  pageSize : Option Int := none
  deriving Repr, DecidableEq

/-- The outbound request parameters built by `fetch` (page, page_size,
then either query or view, plus the optional interaction tag). -/
structure FetchParams where
  page : Int
  page_size : Int
  query : Option String := none
  view : Option Nat := none
  interaction : Option String := none
  deriving Repr, DecidableEq

/-- Step 1 of fetch: resolve the view id and query, from the explicit
id argument when truthy, otherwise from the selected view (taking its
query only when the view is virtual). -/
def resolveView (env : Option ViewDesc) (a : FetchArgs) : Option Nat × Option String :=
  if jsTruthyNat a.id then (a.id, a.query)
  else
    match env with
    | some view => (some view.id, if view.virtual then view.query else none)
    | none => (none, none)

/-- The page update of fetch: when reload is requested or a page number
is given, a page of 0 becomes 1, otherwise an explicit page number
wins, otherwise the page is kept; with neither, the page advances. -/
def nextPage (page : Int) (reload : Bool) (pageNumber : Option Int) : Int :=
  if reload || pageNumber.isSome then
    if page = 0 then 1
    else
      match pageNumber with
      | some n => n
      | none => page
  else page + 1

/-- The synchronous prefix of `fetch`, up to the `yield apiCall`: mint
the token into requestId first, resolve the view, return early when no
view id resolves, otherwise set loading, update page and pageSize and
build the outbound parameters. Returns the mutated state and the
parameters of the issued request (none when no request is issued). -/
def fetchStart (s : ListState) (token : Nat) (env : Option ViewDesc) (a : FetchArgs) :
    ListState × Option FetchParams :=
  let s0 := { s with requestId := some token }
  let resolved := resolveView env a
  match resolved.1 with
  | none => (s0, none)
  | some viewId =>
    let s1 := { s0 with loading := true, page := nextPage s0.page a.reload a.pageNumber }
    let s2 := if jsTruthyInt a.pageSize then { s1 with pageSize := a.pageSize.getD s1.pageSize } else s1
    let q := if jsTruthyStr resolved.2 then resolved.2 else none
    let params : FetchParams :=
      { page := s2.page
        page_size := s2.pageSize
        query := q
        view := if jsTruthyStr resolved.2 then none else some viewId
        interaction := if jsTruthyStr a.interaction then a.interaction else none }
    (s2, some params)

/-- The response payload destructured by fetch:
`\x7b total, [apiMethod]: list \x7d = data`. The record list is absent
when the response carries no such key. -/
structure FetchData where
  total : Int := 0
  list : Option (List RawRecord) := none
  deriving Repr, DecidableEq

/-- The continuation of `fetch` after the awaited apiCall returns: the
stale-response guard discards the response when requestId changed while
the request was in flight; otherwise read `self.highlighted` (the Item
object), merge via setList when a record list is present, clear the
highlight when `listIncludes` fails on the saved value, and clear
loading. -/
def fetchResume (s : ListState) (token : Nat) (a : FetchArgs) (data : FetchData) :
    ListState :=
  if s.requestId ≠ some token then s
  else
    let highlightedID := highlightedJVal s
    let s1 :=
      match data.list with
      | some l => setList s l data.total (a.reload || a.pageNumber.isSome)
      | none => s
    let s2 :=
      if highlightedID ≠ JVal.undef && !listIncludes s1.list highlightedID then
        { s1 with highlightedId := none }
      else s1
    { s2 with loading := false }

/-- A world in which fetches interleave: the store plus the mint
counter backing guidGenerator (each mint yields the counter value, so
distinct mints yield distinct tokens). -/
structure World where
  store : ListState
  counter : Nat
  deriving Repr, DecidableEq

/-- One scheduler event on a ListStore: the synchronous start of a
fetch (which mints a fresh token), or the return of a response for a
fetch that was started with the given token. -/
inductive FetchEv where
  | start (env : Option ViewDesc) (a : FetchArgs)
  | ret (token : Nat) (a : FetchArgs) (data : FetchData)
  deriving Repr, DecidableEq

/-- Execution of one event. -/
def stepEv (w : World) : FetchEv → World
  | FetchEv.start env a => { store := (fetchStart w.store w.counter env a).1, counter := w.counter + 1 }
  | FetchEv.ret token a data => { w with store := fetchResume w.store token a data }

/-- Execution of a sequence of events. -/
def runEvents (w : World) (es : List FetchEv) : World :=
  es.foldl stepEv w

/-! ## AppStore: the apiCall funnel -/

/-- A transport result as delivered by the API proxy: an error flag, an
HTTP status and an optional response payload. -/
structure ApiResult where
  error : Bool := false
  status : Int := 200
  response : Option String := none
  deriving Repr, DecidableEq

/-- One entry of the serverError map: the fixed message plus the
recorded response payload. -/
structure ServerErrorEntry where
  msg : String
  response : String
  deriving Repr, DecidableEq

/-- The serverError keyed map, modelled as an association list with
map lookup semantics. -/
abbrev SEMap : Type := List (String × ServerErrorEntry)

/-- Map lookup: the value at the key, if present. -/
def seGet (m : SEMap) (k : String) : Option ServerErrorEntry :=
  (m.find? (fun p => p.1 = k)).map (fun p => p.2)

/-- Map set: bind the key to the value, replacing any prior binding. -/
def seSet (m : SEMap) (k : String) (v : ServerErrorEntry) : SEMap :=
  (k, v) :: m.filter (fun p => p.1 ≠ k)

/-- Map delete: remove any binding of the key. -/
def seDel (m : SEMap) (k : String) : SEMap :=
  m.filter (fun p => p.1 ≠ k)

/-- `apiCall(methodName, params, body)` from AppStore.js, restricted to
its error bookkeeping: given the prior serverError map and the
transport result, on an error whose status is not 404 record the
response payload (when one is carried) under the method name, and
otherwise (success or 404) delete any prior entry for the method; the
raw result is returned unconditionally. Warning logs and the host
error notification are observationally irrelevant side channels. -/
def apiCall (serverError : SEMap) (methodName : String) (result : ApiResult) :
    ApiResult × SEMap :=
  if result.error && result.status ≠ 404 then
    match result.response with
    | some payload =>
        (result, seSet serverError methodName { msg := "Something went wrong", response := payload })
    | none => (result, serverError)
  else
    (result, seDel serverError methodName)

/-! ## AppStore: the invokeAction parameter bundle -/

/-- A selection snapshot `\x7b all, included \x7d`. -/
structure Selection where
  all : Bool
  included : List Nat
  deriving Repr, DecidableEq

/-- The filters part of the action parameter bundle. -/
structure FilterBundle where
  conjunction : String
  items : List String
  deriving Repr, DecidableEq

/-- The fields of the current view read by invokeAction. -/
structure ViewState where
  ordering : List String := []
  selectedSnapshot : Option Selection := none
  conjunction : Option String := none
  serializedFilters : Option (List String) := none
  deriving Repr, DecidableEq

/-- The action parameter bundle: each field is optional because the
next_task special case deletes fields from the object. -/
structure ActionParams where
  ordering : Option (List String) := none
  selectedItems : Option Selection := none
  filters : Option FilterBundle := none
  deriving Repr, DecidableEq

/-- The parameter-bundle construction of `invokeAction(actionId, ...)`
from AppStore.js: the full bundle is built from the current view
(ordering, the selection snapshot or the default empty one, the filter
conjunction and serialized items); for the action id "next_task" the
persisted label-stream mode then deletes fields: mode "all" deletes
filters, and also selectedItems and ordering when the selection is
`\x7b all: false, included: [] \x7d`; mode "filtered" deletes
selectedItems. -/
def invokeActionParams (view : ViewState) (actionId : String)
    (labelStreamMode : Option String) : ActionParams :=
  let base : ActionParams :=
    { ordering := some view.ordering
      selectedItems := some (view.selectedSnapshot.getD { all := false, included := [] })
      filters := some
        { conjunction := view.conjunction.getD "and"
          items := view.serializedFilters.getD [] } }
  if actionId = "next_task" then
    if labelStreamMode = some "all" then
      let p := { base with filters := none }
      if p.selectedItems = some { all := false, included := [] } then
        { p with selectedItems := none, ordering := none }
      else p
    else if labelStreamMode = some "filtered" then
      { base with selectedItems := none }
    else base
  else base

/-! ## AppStore: labeling transitions -/

/-- The orchestrator state relevant to startLabeling and closeLabeling:
the mode string, the selections of the two data stores, whether the
rendering host session is active, the single-item loading flag of the
active data store, and whether labeling is configured. -/
structure AppState where
  mode : String := "explorer"
  taskSelectedId : Option Nat := none
  annSelectedId : Option Nat := none
  lsfActive : Bool := false
  dsLoadingItem : Bool := false
  labelingConfigured : Bool := false
  deriving Repr, DecidableEq

/-- An item passed to startLabeling: its id, the optional task_id it
carries, and whether it is the active selection. Modelled from the
spec: the item model is not under src/, and `item.isSelected` means
the item is the data store currently active selection. -/
structure LabelItem where
  id : Nat
  task_id : Option Nat := none
  isSelected : Bool := false
  deriving Repr, DecidableEq

/-- The identifiers handed to setTask by startLabeling. -/
structure SetTaskCall where
  taskID : Option Nat := none
  annID : Option Nat := none
  deriving Repr, DecidableEq

/-- `closeLabeling(options)` from AppStore.js: unset the task and the
selection on both stores (unsetTask), resolve and push a navigation
tab target (external, notify-only), set the mode to explorer and tear
down the rendering host session. Modelled from the spec for the
SDK part: `SDK.setMode(mode)` sets the application mode and
`SDK.destroyLSF()` deactivates the host session. -/
def closeLabeling (s : AppState) : AppState :=
  { s with
    taskSelectedId := none
    annSelectedId := none
    mode := "explorer"
    lsfActive := false }

/-- `startLabeling(item, options)` from AppStore.js: refuse when
labeling is not configured (a confirmation modal is shown instead) or
when the active data store has a single-item load in flight; otherwise
set the mode to labeling, and either delegate to setTask with the
identifiers derived from a non-selected item (an item carrying a
task_id is an annotation of that task) or toggle off through
closeLabeling. Returns the new state and the setTask call, when one is
made. `SDK.setMode` is modelled from the spec as setting the mode. -/
def startLabeling (s : AppState) (item : Option LabelItem) :
    AppState × Option SetTaskCall :=
  if !s.labelingConfigured then (s, none)
  else if s.dsLoadingItem then (s, none)
  else
    let s1 := { s with mode := "labeling" }
    match item with
    | some it =>
      if !it.isSelected then
        let params : SetTaskCall :=
          match it.task_id with
          | some tid => { taskID := some tid, annID := some it.id }
          | none => { taskID := some it.id, annID := none }
        (s1, some params)
      else (closeLabeling s1, none)
    | none => (closeLabeling s1, none)

/-! ## Lemmas about fetch and the request token -/

theorem setList_requestId (s : ListState) (l : List RawRecord) (t : Int) (r : Bool) :
    (setList s l t r).requestId = s.requestId := rfl

theorem fetchStart_requestId (s : ListState) (token : Nat) (env : Option ViewDesc)
    (a : FetchArgs) : ((fetchStart s token env a).1).requestId = some token := by
  unfold fetchStart
  cases h : (resolveView env a).1 with
  | none => simp [h]
  | some v => simp [h]; split <;> rfl

theorem fetchResume_requestId (s : ListState) (token : Nat) (a : FetchArgs)
    (d : FetchData) : (fetchResume s token a d).requestId = s.requestId := by
  unfold fetchResume
  split
  · rfl
  · cases hl : d.list <;> simp [hl, setList_requestId] <;> split <;> rfl

theorem fetchResume_stale (s : ListState) (token : Nat) (a : FetchArgs) (d : FetchData)
    (h : s.requestId ≠ some token) : fetchResume s token a d = s := by
  unfold fetchResume
  simp [h]

/-- The token was superseded: the store requestId no longer holds it and
the mint counter has moved past it. -/
def TokenGone (t : Nat) (w : World) : Prop :=
  w.store.requestId ≠ some t ∧ t < w.counter

theorem stepEv_tokenGone (t : Nat) (w : World) (e : FetchEv) (h : TokenGone t w) :
    TokenGone t (stepEv w e) := by
  cases e with
  | start env a =>
    refine ⟨?_, Nat.lt_succ_of_lt h.2⟩
    show ((fetchStart w.store w.counter env a).1).requestId ≠ some t
    rw [fetchStart_requestId]
    intro hc
    injection hc with hc
    have hlt := h.2
    omega
  | ret token a data =>
    refine ⟨?_, h.2⟩
    show (fetchResume w.store token a data).requestId ≠ some t
    rw [fetchResume_requestId]
    exact h.1

theorem runEvents_tokenGone (t : Nat) (es : List FetchEv) :
    ∀ w : World, TokenGone t w → TokenGone t (runEvents w es) := by
  induction es with
  | nil => intro w h; exact h
  | cons e es ih =>
    intro w h
    rw [runEvents, List.foldl_cons]
    exact ih (stepEv w e) (stepEv_tokenGone t w e h)

/-- Claim C1: for every sequence of overlapping fetch calls on one
ListStore, only the response whose minted RequestToken still equals the
store requestId when it returns may mutate state; here, after a fetch
mints the token `w0.counter` and any newer fetch starts (followed by
any further interleaving of starts and returns), the return of the
older response is a complete no-op on the store: no list, total,
highlight or any other mutation, and no error. -/
theorem fetch_stale_response_noop (w0 : World) (env env2 : Option ViewDesc)
    (a a2 aR : FetchArgs) (es : List FetchEv) (d : FetchData) :
    fetchResume
        (runEvents (stepEv (stepEv w0 (FetchEv.start env a)) (FetchEv.start env2 a2)) es).store
        w0.counter aR d
      = (runEvents (stepEv (stepEv w0 (FetchEv.start env a)) (FetchEv.start env2 a2)) es).store := by
  have h1 : TokenGone w0.counter (stepEv (stepEv w0 (FetchEv.start env a)) (FetchEv.start env2 a2)) := by
    constructor
    · show ((fetchStart _ _ env2 a2).1).requestId ≠ some w0.counter
      rw [fetchStart_requestId]
      show some ((stepEv w0 (FetchEv.start env a)).counter) ≠ some w0.counter
      have : (stepEv w0 (FetchEv.start env a)).counter = w0.counter + 1 := rfl
      rw [this]
      intro hc
      injection hc with hc
      omega
    · show w0.counter < (stepEv (stepEv w0 (FetchEv.start env a)) (FetchEv.start env2 a2)).counter
      have : (stepEv (stepEv w0 (FetchEv.start env a)) (FetchEv.start env2 a2)).counter
          = w0.counter + 2 := rfl
      omega
  have h2 := runEvents_tokenGone w0.counter es _ h1
  exact fetchResume_stale _ _ _ _ h2.1

/-! ## The page update of fetch (claim C4) -/

theorem fetchStart_page (s : ListState) (token : Nat) (v : ViewDesc) (a : FetchArgs) :
    ((fetchStart s token (some v) a).1).page = nextPage s.page a.reload a.pageNumber := by
  unfold fetchStart
  cases h : (resolveView (some v) a).1 with
  | none =>
    exfalso
    unfold resolveView at h
    by_cases ht : jsTruthyNat a.id
    · rw [if_pos ht] at h
      cases ha : a.id with
      | none => rw [ha] at ht; simp [jsTruthyNat] at ht
      | some n => rw [ha] at h; exact Option.noConfusion h
    · rw [if_neg ht] at h
      exact Option.noConfusion h
  | some vid => simp [h]; split <;> rfl

/-- Claim C4 counterexample: with page 3 a reload fetch (no explicit
page number) keeps page 3 instead of jumping to page 1, and with page 0
an explicit pageNumber 5 yields page 1 instead of page 5. -/
theorem fetch_page_update_counterexample :
    ((fetchStart { page := 3 } 0 (some { id := 1 }) { reload := true }).1).page = 3
    ∧ ¬ ((fetchStart { page := 3 } 0 (some { id := 1 }) { reload := true }).1).page = 1
    ∧ ((fetchStart { page := 0 } 0 (some { id := 1 }) { pageNumber := some 5 }).1).page = 1
    ∧ ¬ ((fetchStart { page := 0 } 0 (some { id := 1 }) { pageNumber := some 5 }).1).page = 5 := by
  decide

/-- Claim C4 (amended): for every fetch call that resolves a view, when
reload is requested or an explicit pageNumber is given, a current page
of 0 becomes 1; otherwise an explicit pageNumber becomes the page, and
a bare reload keeps the current page; when neither reload nor
pageNumber is given, page becomes page + 1. -/
theorem fetch_page_update (s : ListState) (token : Nat) (v : ViewDesc) (a : FetchArgs) :
    ((a.reload = true ∨ a.pageNumber.isSome) → s.page = 0 →
        ((fetchStart s token (some v) a).1).page = 1)
    ∧ (∀ n, a.pageNumber = some n → s.page ≠ 0 →
        ((fetchStart s token (some v) a).1).page = n)
    ∧ (a.reload = true → a.pageNumber = none → s.page ≠ 0 →
        ((fetchStart s token (some v) a).1).page = s.page)
    ∧ (a.reload = false → a.pageNumber = none →
        ((fetchStart s token (some v) a).1).page = s.page + 1) := by
  refine ⟨?_, ?_, ?_, ?_⟩
  · intro hr hp
    rw [fetchStart_page]
    unfold nextPage
    rcases hr with hr | hr <;> simp [hr, hp]
  · intro n hn hp
    rw [fetchStart_page]
    unfold nextPage
    simp [hn, hp]
  · intro hr hn hp
    rw [fetchStart_page]
    unfold nextPage
    simp [hr, hn, hp]
  · intro hr hn
    rw [fetchStart_page]
    unfold nextPage
    simp [hr, hn]

/-- Witness for claim C4 at concrete inputs: page 0 with reload becomes
1; page 2 with pageNumber 7 becomes 7; page 2 with bare reload stays 2;
page 2 with neither becomes 3. -/
theorem fetch_page_update_witness :
    ((fetchStart { page := 0 } 0 (some { id := 1 }) { reload := true }).1).page = 1
    ∧ ((fetchStart { page := 2 } 0 (some { id := 1 }) { pageNumber := some 7 }).1).page = 7
    ∧ ((fetchStart { page := 2 } 0 (some { id := 1 }) { reload := true }).1).page = 2
    ∧ ((fetchStart { page := 2 } 0 (some { id := 1 }) ({} : FetchArgs)).1).page = 2 + 1 := by
  refine ⟨?_, ?_, ?_, ?_⟩
  · exact (fetch_page_update { page := 0 } 0 { id := 1 } { reload := true }).1 (Or.inl rfl) rfl
  · exact (fetch_page_update { page := 2 } 0 { id := 1 } { pageNumber := some 7 }).2.1 7 rfl (by decide)
  · exact (fetch_page_update { page := 2 } 0 { id := 1 } { reload := true }).2.2.1 rfl rfl (by decide)
  · exact (fetch_page_update { page := 2 } 0 { id := 1 } ({} : FetchArgs)).2.2.2 rfl rfl

/-! ## The no-view early return of fetch (claim C5) -/

/-- Claim C5 counterexample: a fetch with no explicit id and no selected
view does not leave the entire ListStore state unchanged: the freshly
minted token is written into requestId before the early return. -/
theorem fetch_no_view_noop_counterexample :
    ¬ (fetchStart ({} : ListState) 0 none ({} : FetchArgs)).1 = ({} : ListState) := by
  decide

/-- Claim C5 (amended): a fetch whose explicit id argument is absent
(or falsy) while no view is selected returns before issuing a request
and leaves page, pageSize, list, total, loading, selection and
highlight unchanged and surfaces no error; the one mutation it does
perform is overwriting requestId with the freshly minted token. -/
theorem fetch_no_view_noop (s : ListState) (token : Nat) (a : FetchArgs)
    (h : jsTruthyNat a.id = false) :
    fetchStart s token none a = ({ s with requestId := some token }, none) := by
  unfold fetchStart resolveView
  simp [h]

/-- Witness for claim C5 at a concrete input. -/
theorem fetch_no_view_noop_witness :
    fetchStart { page := 2, total := 7 } 5 none ({} : FetchArgs)
      = ({ page := 2, total := 7, requestId := some 5 }, none) :=
  fetch_no_view_noop { page := 2, total := 7 } 5 ({} : FetchArgs) rfl

/-! ## The setList merge algorithm (claims C2 and C9) -/

theorem removeFirstById_eq_filter (l : List Item) (i : Nat)
    (h : (l.map Item.id).Nodup) :
    removeFirstById l i = l.filter (fun it => it.id ≠ i) := by
  induction l with
  | nil => rfl
  | cons x xs ih =>
    rw [List.map_cons, List.nodup_cons] at h
    by_cases hx : x.id = i
    · rw [removeFirstById, if_pos hx, List.filter_cons]
      rw [if_neg (by simp [hx])]
      refine (List.filter_eq_self.mpr ?_).symm
      intro a ha
      simp only [ne_eq, decide_eq_true_eq]
      intro hai
      apply h.1
      rw [hx, ← hai]
      exact List.mem_map_of_mem Item.id ha
    · rw [removeFirstById, if_neg hx, List.filter_cons, if_pos (by simp [hx]), ih h.2]

theorem ids_filter_sublist (l : List Item) (p : Item → Bool) :
    ((l.filter p).map Item.id).Sublist (l.map Item.id) :=
  List.Sublist.map Item.id (List.filter_sublist l)

theorem foldl_removeFirst_eq_filter (inc : List Item) :
    ∀ l : List Item, (l.map Item.id).Nodup →
      inc.foldl (fun acc n => removeFirstById acc n.id) l
        = l.filter (fun it => !(inc.any (fun n => n.id = it.id))) := by
  induction inc with
  | nil => intro l _; simp
  | cons n inc ih =>
    intro l h
    rw [List.foldl_cons]
    rw [removeFirstById_eq_filter l n.id h]
    rw [ih _ ((ids_filter_sublist l _).nodup h)]
    rw [List.filter_filter]
    refine List.filter_congr ?_
    intro a _
    by_cases ha : n.id = a.id
    · simp [List.any_cons, ha]
    · simp [List.any_cons, ha]
      intro _ hc
      exact ha hc.symm

/-- The ids of the wrapped incoming records are the incoming ids. -/
theorem ids_map_wrapRecord (l : List RawRecord) :
    (l.map wrapRecord).map Item.id = l.map RawRecord.id := by
  rw [List.map_map]; rfl

/-- Searching the wrapped records for an id is searching the records. -/
theorem any_map_wrap (l : List RawRecord) (k : Nat) :
    ((l.map wrapRecord).any fun n => decide (n.id = k)) = l.any fun t => decide (t.id = k) := by
  induction l with
  | nil => rfl
  | cons t ts ih =>
    simp only [List.map_cons, List.any_cons, ih]
    rfl

/-- Claim C2 counterexample: when the existing list already violates
the no-duplicate invariant (two Items with id 2), setList does not
remove every Item whose id matches an incoming id: the splice removes
only the first occurrence, so the merged list keeps the second one. -/
theorem setList_merge_counterexample :
    ¬ ((setList { list := [{ id := 2, v := some "a" }, { id := 2, v := some "b" }] }
          [{ id := 2, v := some "new" }] 1 false).list
        = ([{ id := 2, v := some "a" }, { id := 2, v := some "b" }] : List Item).filter
            (fun it => !(([{ id := 2, v := some "new" }] : List RawRecord).any
              (fun t => t.id = it.id)))
          ++ ([{ id := 2, v := some "new" }] : List RawRecord).map wrapRecord) := by
  decide

/-- The merged list of setList, characterized on a duplicate-free
existing list: the surviving existing items followed by the wrapped
incoming items (nothing survives under reload). -/
theorem setList_list_eq (s : ListState) (l : List RawRecord) (total : Int) (reload : Bool)
    (h : (s.list.map Item.id).Nodup) :
    (setList s l total reload).list
        = (if reload then [] else
            s.list.filter (fun it => !(l.any (fun t => t.id = it.id))))
          ++ l.map wrapRecord := by
  show (if reload then l.map wrapRecord else
      (l.map wrapRecord).foldl (fun acc n => removeFirstById acc n.id) s.list
        ++ l.map wrapRecord) = _
  cases reload with
  | true => simp
  | false =>
    rw [if_neg (by simp), if_neg (by simp)]
    rw [foldl_removeFirst_eq_filter _ _ h]
    congr 1
    refine List.filter_congr ?_
    intro a _
    rw [show ((l.map wrapRecord).any fun n => decide (n.id = a.id))
        = l.any fun t => decide (t.id = a.id) from any_map_wrap l a.id]

/-- Claim C2 (amended): for every existing list with no two Items of
equal id, incoming record list, total and reload flag, setList wraps
each incoming record as an Item carrying its source snapshot, sets
total, removes from the existing list every Item whose id matches an
incoming id, and appends the wrapped incoming items in server order at
the end — after replacing the list wholesale first when reload is set. -/
theorem setList_merge (s : ListState) (l : List RawRecord) (total : Int) (reload : Bool)
    (h : (s.list.map Item.id).Nodup) :
    (setList s l total reload).total = total
    ∧ (setList s l total reload).list
        = (if reload then [] else
            s.list.filter (fun it => !(l.any (fun t => t.id = it.id))))
          ++ l.map wrapRecord :=
  ⟨rfl, setList_list_eq s l total reload h⟩

/-- Witness for claim C2: the merge of the spec example, incoming
record id 2 into the existing list of Items 1 and 2 with reload false,
yields Item 1 followed by the rewrapped Item 2 with the new payload. -/
theorem setList_merge_witness :
    (setList { list := [{ id := 1 }, { id := 2 }] }
        [{ id := 2, v := some "new" }] 10 false).list
      = [{ id := 1 },
         { id := 2, v := some "new", source := some { id := 2, v := some "new" } }]
    ∧ (setList { list := [{ id := 1 }, { id := 2 }] }
        [{ id := 2, v := some "new" }] 10 false).total = 10 := by
  have h := setList_merge { list := [{ id := 1 }, { id := 2 }] }
    [{ id := 2, v := some "new" }] 10 false (by decide)
  refine ⟨?_, h.1⟩
  rw [h.2]
  decide

/-! ## The no-duplicate-id invariant (claim C9) -/

theorem setList_nodup (s : ListState) (l : List RawRecord) (total : Int) (reload : Bool)
    (h : (s.list.map Item.id).Nodup) (hl : (l.map RawRecord.id).Nodup) :
    ((setList s l total reload).list.map Item.id).Nodup := by
  rw [setList_list_eq s l total reload h, List.map_append, ids_map_wrapRecord]
  cases reload with
  | true => simpa using hl
  | false =>
    rw [if_neg (by simp)]
    refine List.Nodup.append ((ids_filter_sublist s.list _).nodup h) hl ?_
    intro a ha hb
    rcases List.mem_map.mp ha with ⟨it, hit, rfl⟩
    rcases List.mem_filter.mp hit with ⟨_, hcond⟩
    rcases List.mem_map.mp hb with ⟨t, ht, hid⟩
    have : l.any (fun t => decide (t.id = it.id)) = true :=
      List.any_eq_true.mpr ⟨t, ht, by simp [hid]⟩
    rw [this] at hcond
    exact Bool.noConfusion hcond

theorem ids_patchFirst (l : List Item) (i : Nat) (p : ItemPatch) (hp : p.id = some i) :
    (patchFirst l i p).map Item.id = l.map Item.id := by
  induction l with
  | nil => rfl
  | cons x xs ih =>
    rw [patchFirst]
    by_cases hx : x.id = i
    · rw [if_pos hx]
      simp [applyPatch, hp, hx]
    · rw [if_neg hx]
      simp [ih]

theorem updateItem_nodup (s : ListState) (itemID : Nat) (p : ItemPatch)
    (h : (s.list.map Item.id).Nodup) (hp : p.id = some itemID) :
    ((updateItem s itemID p).list.map Item.id).Nodup := by
  unfold updateItem
  cases hf : s.list.find? (fun t => t.id = itemID) with
  | some it =>
    show ((patchFirst s.list itemID p).map Item.id).Nodup
    rw [ids_patchFirst _ _ _ hp]
    exact h
  | none =>
    show ((s.list ++ [createItem p]).map Item.id).Nodup
    rw [List.map_append]
    refine List.Nodup.append h (by simp) ?_
    intro a ha hb
    rcases List.mem_map.mp ha with ⟨it, hit, rfl⟩
    have hne := List.find?_eq_none.mp hf it hit
    simp only [decide_eq_true_eq] at hne
    simp only [List.map_cons, List.map_nil, List.mem_singleton] at hb
    apply hne
    rw [hb]
    simp [createItem, hp]

theorem fetchStart_list (s : ListState) (token : Nat) (env : Option ViewDesc)
    (a : FetchArgs) : ((fetchStart s token env a).1).list = s.list := by
  unfold fetchStart
  cases h : (resolveView env a).1 with
  | none => simp [h]
  | some v => simp [h]; split <;> rfl

theorem fetchResume_list (s : ListState) (token : Nat) (a : FetchArgs) (d : FetchData) :
    (fetchResume s token a d).list = s.list
    ∨ ∃ l, d.list = some l
        ∧ (fetchResume s token a d).list
            = (setList s l d.total (a.reload || a.pageNumber.isSome)).list := by
  unfold fetchResume
  split
  · left; rfl
  · cases hl : d.list with
    | none => left; simp [hl]; split <;> rfl
    | some l =>
      right
      exact ⟨l, rfl, by simp [hl]; split <;> rfl⟩

/-- Claim C9 counterexample: setList does not preserve the
no-duplicate-id invariant for every incoming record list: merging an
incoming list that itself carries two records with the same id leaves
two Items with equal id in the list. -/
theorem dataStore_nodup_counterexample :
    ¬ (((setList ({} : ListState) [{ id := 1, v := some "a" }, { id := 1, v := some "b" }]
          2 true).list.map Item.id).Nodup) := by
  decide

/-- Claim C9 (amended): every ListStore operation — setList, updateItem,
clear, and both phases of fetch — preserves the invariant that the
list never contains two Items with equal id, provided incoming record
lists carry pairwise-distinct ids and the updateItem patch carries the
id it is addressed to. -/
theorem dataStore_nodup_invariant (s : ListState) (h : (s.list.map Item.id).Nodup) :
    (∀ (l : List RawRecord) (total : Int) (reload : Bool), (l.map RawRecord.id).Nodup →
        ((setList s l total reload).list.map Item.id).Nodup)
    ∧ (∀ (itemID : Nat) (p : ItemPatch), p.id = some itemID →
        ((updateItem s itemID p).list.map Item.id).Nodup)
    ∧ ((clear s).list.map Item.id).Nodup
    ∧ (∀ (token : Nat) (env : Option ViewDesc) (a : FetchArgs),
        (((fetchStart s token env a).1).list.map Item.id).Nodup)
    ∧ (∀ (token : Nat) (a : FetchArgs) (d : FetchData),
        (∀ l, d.list = some l → (l.map RawRecord.id).Nodup) →
        ((fetchResume s token a d).list.map Item.id).Nodup) := by
  refine ⟨fun l total reload hl => setList_nodup s l total reload h hl,
    fun itemID p hp => updateItem_nodup s itemID p h hp,
    by simp [clear],
    fun token env a => by rw [fetchStart_list]; exact h,
    fun token a d hd => ?_⟩
  rcases fetchResume_list s token a d with heq | ⟨l, hl, heq⟩
  · rw [heq]; exact h
  · rw [heq]
    exact setList_nodup s l d.total _ h (hd l hl)

/-- Witness for claim C9 at concrete inputs: on a store holding Items 1
and 2, a merge of record 3, an updateItem of id 9 carrying id 9, clear,
a fetch start and a fetch response merging record 1 all leave the ids
duplicate-free. -/
theorem dataStore_nodup_invariant_witness :
    ((setList { list := [{ id := 1 }, { id := 2 }] } [{ id := 3 }] 5 false).list.map
        Item.id).Nodup
    ∧ ((updateItem { list := [{ id := 1 }, { id := 2 }] } 9 { id := some 9 }).list.map
        Item.id).Nodup
    ∧ ((clear { list := [{ id := 1 }, { id := 2 }] }).list.map Item.id).Nodup
    ∧ (((fetchStart { list := [{ id := 1 }, { id := 2 }] } 0 none ({} : FetchArgs)).1).list.map
        Item.id).Nodup
    ∧ ((fetchResume { list := [{ id := 1 }, { id := 2 }], requestId := some 4 } 4
          ({} : FetchArgs) { total := 1, list := some [{ id := 1 }] }).list.map
        Item.id).Nodup := by
  have h1 := dataStore_nodup_invariant { list := [{ id := 1 }, { id := 2 }] } (by decide)
  have h2 := dataStore_nodup_invariant
    { list := [{ id := 1 }, { id := 2 }], requestId := some 4 } (by decide)
  exact ⟨h1.1 [{ id := 3 }] 5 false (by decide),
    h1.2.1 9 { id := some 9 } rfl,
    h1.2.2.1,
    h1.2.2.2.1 0 none ({} : FetchArgs),
    h2.2.2.2.2 4 ({} : FetchArgs) { total := 1, list := some [{ id := 1 }] }
      (fun l hl => by cases hl; decide)⟩

/-! ## Highlight bookkeeping after a merge (claim C3) -/

/-- The source passes the highlighted Item object, not its id, into
listIncludes; strict equality between a numeric id and an object is
always false, so the membership test never succeeds on an object. -/
theorem listIncludes_obj (l : List Item) (it : Item) :
    listIncludes l (JVal.obj it) = false := by
  unfold listIncludes
  induction l with
  | nil => rfl
  | cons x xs ih => simp [List.any_cons, jsIdEq, ih]

/-- Claim C3 failing input: a fetch merge on a store highlighting Item 1
whose response still contains id 1 clears the highlight anyway (while
id 1 is present in the merged list), and a merge on a store whose
highlightedId 5 dangles does not clear it even though id 5 is absent
from the merged list; in both cases the highlighted view resolves to
undefined without an error. -/
theorem fetch_highlight_clear_bug :
    ((fetchResume { list := [{ id := 1 }], highlightedId := some 1, requestId := some 7 } 7
        ({} : FetchArgs) { total := 1, list := some [{ id := 1 }] }).highlightedId = none)
    ∧ ((fetchResume { list := [{ id := 1 }], highlightedId := some 1, requestId := some 7 } 7
        ({} : FetchArgs) { total := 1, list := some [{ id := 1 }] }).list.any
          (fun it => it.id = 1) = true)
    ∧ ((fetchResume { list := [{ id := 1 }], highlightedId := some 5, requestId := some 7 } 7
        ({} : FetchArgs) { total := 1, list := some [{ id := 2 }] }).highlightedId = some 5)
    ∧ ((fetchResume { list := [{ id := 1 }], highlightedId := some 5, requestId := some 7 } 7
        ({} : FetchArgs) { total := 1, list := some [{ id := 2 }] }).list.any
          (fun it => it.id = 5) = false)
    ∧ highlightedView
        (fetchResume { list := [{ id := 1 }], highlightedId := some 5, requestId := some 7 }
          7 ({} : FetchArgs) { total := 1, list := some [{ id := 2 }] })
        = none := by
  decide

/-! ## The apiCall error bookkeeping (claim C6) -/

theorem seGet_seSet (m : SEMap) (k : String) (v : ServerErrorEntry) :
    seGet (seSet m k v) k = some v := by
  unfold seGet seSet
  rw [List.find?_cons_of_pos _ (by simp)]
  rfl

theorem seGet_seDel (m : SEMap) (k : String) : seGet (seDel m k) k = none := by
  unfold seGet seDel
  induction m with
  | nil => rfl
  | cons p ps ih =>
    by_cases hp : p.1 = k
    · rw [List.filter_cons, if_neg (by simp [hp])]
      exact ih
    · rw [List.filter_cons, if_pos (by simp [hp]),
        List.find?_cons_of_neg _ (by simp [hp])]
      exact ih

/-- Claim C6: apiCall returns the raw transport result unconditionally
(it never raises); on an error whose status is not 404 it records the
entry under the method name exactly when the result carries a response
payload (and touches nothing otherwise); on a success or a 404 any
previously recorded entry for the method is removed. -/
theorem apiCall_error_bookkeeping (m : SEMap) (name : String) (r : ApiResult) :
    (apiCall m name r).1 = r
    ∧ (r.error = true → r.status ≠ 404 → ∀ p, r.response = some p →
        seGet (apiCall m name r).2 name
          = some { msg := "Something went wrong", response := p })
    ∧ (r.error = true → r.status ≠ 404 → r.response = none →
        (apiCall m name r).2 = m)
    ∧ ((r.error = false ∨ r.status = 404) →
        seGet (apiCall m name r).2 name = none) := by
  refine ⟨?_, ?_, ?_, ?_⟩
  · unfold apiCall
    split
    · cases r.response <;> rfl
    · rfl
  · intro he hs p hp
    unfold apiCall
    rw [if_pos (by simp [he, hs])]
    rw [hp]
    exact seGet_seSet m name _
  · intro he hs hn
    unfold apiCall
    rw [if_pos (by simp [he, hs])]
    rw [hn]
  · intro hor
    unfold apiCall
    rw [if_neg ?_]
    · exact seGet_seDel m name
    · rcases hor with he | hs
      · simp [he]
      · simp [hs]

/-- Witness for claim C6: a 500-class error with a payload records the
entry; a success on a method with a previously recorded entry removes
it; a 404 error also removes it. -/
theorem apiCall_error_bookkeeping_witness :
    (apiCall ([] : SEMap) "project" { error := true, status := 500, response := some "boom" }).1
      = { error := true, status := 500, response := some "boom" }
    ∧ seGet (apiCall ([] : SEMap) "project"
        { error := true, status := 500, response := some "boom" }).2 "project"
      = some { msg := "Something went wrong", response := "boom" }
    ∧ seGet (apiCall [("project", { msg := "Something went wrong", response := "old" })]
        "project" { error := false }).2 "project" = none
    ∧ seGet (apiCall [("project", { msg := "Something went wrong", response := "old" })]
        "project" { error := true, status := 404 }).2 "project" = none := by
  refine ⟨(apiCall_error_bookkeeping ([] : SEMap) "project"
      { error := true, status := 500, response := some "boom" }).1,
    (apiCall_error_bookkeeping ([] : SEMap) "project"
      { error := true, status := 500, response := some "boom" }).2.1 rfl (by decide) "boom" rfl,
    (apiCall_error_bookkeeping [("project", { msg := "Something went wrong", response := "old" })]
      "project" { error := false }).2.2.2 (Or.inl rfl),
    (apiCall_error_bookkeeping [("project", { msg := "Something went wrong", response := "old" })]
      "project" { error := true, status := 404 }).2.2.2 (Or.inr rfl)⟩

/-! ## The next_task parameter shapes (claim C7) -/

/-- Claim C7: for the action id next_task, the persisted stream-all
preference always omits filters from the parameter bundle, and omits
selectedItems and ordering exactly when the selection snapshot is the
default empty one; the stream-filtered preference omits only
selectedItems, keeping ordering and filters. -/
theorem invokeAction_next_task_params (view : ViewState) :
    ((invokeActionParams view "next_task" (some "all")).filters = none)
    ∧ (view.selectedSnapshot.getD { all := false, included := [] }
          = { all := false, included := [] } →
        (invokeActionParams view "next_task" (some "all")).selectedItems = none
        ∧ (invokeActionParams view "next_task" (some "all")).ordering = none)
    ∧ (view.selectedSnapshot.getD { all := false, included := [] }
          ≠ { all := false, included := [] } →
        (invokeActionParams view "next_task" (some "all")).selectedItems
          = some (view.selectedSnapshot.getD { all := false, included := [] })
        ∧ (invokeActionParams view "next_task" (some "all")).ordering = some view.ordering)
    ∧ ((invokeActionParams view "next_task" (some "filtered")).selectedItems = none
        ∧ (invokeActionParams view "next_task" (some "filtered")).ordering = some view.ordering
        ∧ (invokeActionParams view "next_task" (some "filtered")).filters
            = some { conjunction := view.conjunction.getD "and"
                     items := view.serializedFilters.getD [] }) := by
  unfold invokeActionParams
  by_cases hd : view.selectedSnapshot.getD { all := false, included := [] }
      = { all := false, included := [] }
  · simp [hd]
  · simp [hd]

/-- Witness for claim C7: with no selection snapshot (the default empty
selection) stream-all omits all three fields; with an all-true snapshot
stream-all keeps selection and ordering; stream-filtered omits only the
selection. -/
theorem invokeAction_next_task_params_witness :
    (invokeActionParams { ordering := ["-id"] } "next_task" (some "all")
      = { ordering := none, selectedItems := none, filters := none })
    ∧ ((invokeActionParams
          { ordering := ["-id"], selectedSnapshot := some { all := true, included := [] } }
          "next_task"
          (some "all")).selectedItems = some { all := true, included := [] })
    ∧ ((invokeActionParams { ordering := ["-id"] } "next_task"
          (some "filtered")).selectedItems = none) := by
  have h1 := invokeAction_next_task_params { ordering := ["-id"] }
  have h2 := invokeAction_next_task_params
    { ordering := ["-id"], selectedSnapshot := some { all := true, included := [] } }
  refine ⟨?_, (h2.2.2.1 (by decide)).1, h1.2.2.2.1⟩
  have ha := h1.1
  have hb := h1.2.1 rfl
  cases hi : invokeActionParams { ordering := ["-id"] } "next_task" (some "all") with
  | mk o si f =>
    rw [hi] at ha hb
    simp only at ha hb
    rw [ha, hb.1, hb.2]

/-! ## Labeling transitions (claim C8) -/

/-- Claim C8: with labeling configured and no single-item load in
flight, startLabeling on the already-selected item ends in explorer
mode with no setTask call (toggle-off via closeLabeling); on a
non-selected item it enters labeling mode and delegates to setTask,
treating an item carrying a task_id as an annotation of that task; and
with a single-item load in flight the call leaves the state untouched
and makes no call. -/
theorem startLabeling_toggle_and_delegate (s : AppState) (it : LabelItem) :
    (s.labelingConfigured = true → s.dsLoadingItem = false → it.isSelected = true →
        (startLabeling s (some it)).1.mode = "explorer"
        ∧ (startLabeling s (some it)).2 = none)
    ∧ (s.labelingConfigured = true → s.dsLoadingItem = false → it.isSelected = false →
        ((startLabeling s (some it)).1.mode = "labeling"
        ∧ (∀ tid, it.task_id = some tid →
            (startLabeling s (some it)).2 = some { taskID := some tid, annID := some it.id })
        ∧ (it.task_id = none →
            (startLabeling s (some it)).2 = some { taskID := some it.id, annID := none })))
    ∧ (s.dsLoadingItem = true → startLabeling s (some it) = (s, none)) := by
  refine ⟨?_, ?_, ?_⟩
  · intro hc hl hs
    unfold startLabeling closeLabeling
    simp [hc, hl, hs]
  · intro hc hl hs
    refine ⟨?_, ?_, ?_⟩
    · unfold startLabeling
      simp [hc, hl, hs]
    · intro tid htid
      unfold startLabeling
      simp [hc, hl, hs, htid]
    · intro htid
      unfold startLabeling
      simp [hc, hl, hs, htid]
  · intro hl
    unfold startLabeling
    by_cases hc : s.labelingConfigured <;> simp [hc, hl]

/-- Witness for claim C8 at concrete inputs: the selected item toggles
off to explorer; an item carrying task_id 8 delegates as annotation 3
of task 8; a plain item delegates as task 3; a store with a load in
flight is untouched. -/
theorem startLabeling_toggle_and_delegate_witness :
    ((startLabeling { labelingConfigured := true, mode := "explorer" }
        (some { id := 3, isSelected := true })).1.mode = "explorer")
    ∧ ((startLabeling { labelingConfigured := true }
        (some { id := 3, task_id := some 8 })).2
          = some { taskID := some 8, annID := some 3 })
    ∧ ((startLabeling { labelingConfigured := true } (some { id := 3 })).2
          = some { taskID := some 3, annID := none })
    ∧ (startLabeling { labelingConfigured := true, dsLoadingItem := true }
        (some { id := 3 })
          = ({ labelingConfigured := true, dsLoadingItem := true }, none)) :=
  ⟨(startLabeling_toggle_and_delegate { labelingConfigured := true, mode := "explorer" }
      { id := 3, isSelected := true }).1 rfl rfl rfl |>.1,
   ((startLabeling_toggle_and_delegate { labelingConfigured := true }
      { id := 3, task_id := some 8 }).2.1 rfl rfl rfl).2.1 8 rfl,
   ((startLabeling_toggle_and_delegate { labelingConfigured := true }
      { id := 3 }).2.1 rfl rfl rfl).2.2 rfl,
   (startLabeling_toggle_and_delegate { labelingConfigured := true, dsLoadingItem := true }
      { id := 3 }).2.2 rfl⟩

/-! ## The frame of clear (claim C10) -/

/-- Claim C10: clear resets exactly list, highlight, page and total;
selectedId, pageSize, the loading flags and the request token keep
their prior values, and the stale selection resolves to undefined on
the emptied list without an error. -/
theorem clear_frame (s : ListState) :
    (clear s).selectedId = s.selectedId
    ∧ (clear s).pageSize = s.pageSize
    ∧ (clear s).loading = s.loading
    ∧ (clear s).loadingItem = s.loadingItem
    ∧ (clear s).requestId = s.requestId
    ∧ (clear s).list = []
    ∧ (clear s).highlightedId = none
    ∧ (clear s).page = 0
    ∧ (clear s).total = 0
    ∧ selectedView (clear s) = none :=
  ⟨rfl, rfl, rfl, rfl, rfl, rfl, rfl, rfl, rfl, rfl⟩
